import Mathlib

/-!
Verification of the EmoTune repository against its natural-language
specification.  Each definition is a shallow embedding of a function,
handler or schema declaration of the source; theorems settle the
spec claims about them.
-/

set_option maxHeartbeats 1000000

/-! ## Recommendation fallback (frontend/src/components/EmotionDetection/MainApp.jsx) -/

/-- A track as produced by the recommendation pipeline
(`{ title, artist, album }` objects of `getDummyRecommendations`). -/
structure Track where
  title : String
  artist : String
  album : String
deriving DecidableEq, Repr

/-- The `happy` entry of the `dummyData` table in `getDummyRecommendations`. -/
def dummyHappy : List Track :=
  [ { title := "Happy", artist := "Pharrell Williams", album := "G I R L" },
    { title := "Good 4 U", artist := "Olivia Rodrigo", album := "SOUR" },
    { title := "Uptown Funk", artist := "Bruno Mars", album := "24K Magic" },
    { title := "Shake It Off", artist := "Taylor Swift", album := "1989" },
    { title := "Walking on Sunshine", artist := "Katrina & The Waves", album := "Walking on Sunshine" },
    { title := "Don\x27t Stop Me Now", artist := "Queen", album := "Jazz" } ]

/-- The `sad` entry of the `dummyData` table in `getDummyRecommendations`. -/
def dummySad : List Track :=
  [ { title := "Someone Like You", artist := "Adele", album := "21" },
    { title := "Hurt", artist := "Johnny Cash", album := "American IV" },
    { title := "The Sound of Silence", artist := "Simon & Garfunkel", album := "Sounds of Silence" },
    { title := "Mad World", artist := "Gary Jules", album := "Trading Snakeoil for Wolftickets" },
    { title := "Tears in Heaven", artist := "Eric Clapton", album := "Unplugged" },
    { title := "Fix You", artist := "Coldplay", album := "X&Y" } ]

/-- The `angry` entry of the `dummyData` table in `getDummyRecommendations`. -/
def dummyAngry : List Track :=
  [ { title := "In the End", artist := "Linkin Park", album := "Hybrid Theory" },
    { title := "Break Stuff", artist := "Limp Bizkit", album := "Significant Other" },
    { title := "Killing in the Name", artist := "Rage Against the Machine", album := "Rage Against the Machine" },
    { title := "Bodies", artist := "Drowning Pool", album := "Sinner" },
    { title := "Chop Suey!", artist := "System of a Down", album := "Toxicity" },
    { title := "Down with the Sickness", artist := "Disturbed", album := "The Sickness" } ]

/-- The `neutral` entry of the `dummyData` table in `getDummyRecommendations`. -/
def dummyNeutral : List Track :=
  [ { title := "Weightless", artist := "Marconi Union", album := "Weightless" },
    { title := "Clair de Lune", artist := "Claude Debussy", album := "Suite Bergamasque" },
    { title := "River Flows in You", artist := "Yiruma", album := "First Love" },
    { title := "Porcelain", artist := "Moby", album := "Play" },
    { title := "Breathe", artist := "Télépopmusik", album := "Genetic World" },
    { title := "Aqueous Transmission", artist := "Incubus", album := "Morning View" } ]

/-- JavaScript `String.prototype.toLowerCase` as used by the client code:
per-character lowercasing. -/
def jsToLower (s : String) : String := ⟨s.data.map Char.toLower⟩

/-- `getDummyRecommendations(emotion)` of MainApp.jsx: looks up
`dummyData[emotion.toLowerCase()]` and falls back to `dummyData.neutral`
when the lowercased label is not a key of the table (`|| dummyData.neutral`). -/
def getDummyRecommendations (emotion : String) : List Track :=
  if jsToLower emotion = "happy" then dummyHappy
  else if jsToLower emotion = "sad" then dummySad
  else if jsToLower emotion = "angry" then dummyAngry
  else if jsToLower emotion = "neutral" then dummyNeutral
  else dummyNeutral

/-- The response body the client receives from `musicAPI.getRecommendations`:
a `success` flag and an optional `tracks` array (`none` models an absent or
null field, `some []` models a present but empty array). -/
structure CatalogResponse where
  success : Bool
  tracks : Option (List Track)
deriving DecidableEq, Repr

/-- Outcome of the catalog request as seen by `fetchMusicRecommendations`:
either a response body, or the request threw (network failure / HTTP error). -/
inductive CatalogOutcome where
  | ok (r : CatalogResponse)
  | err
deriving DecidableEq, Repr

/-- The literal limit passed by `fetchMusicRecommendations` to
`musicAPI.getRecommendations(emotion.toLowerCase(), language, 6)`. -/
def requestedLimit : Nat := 6

/-- `fetchMusicRecommendations` of MainApp.jsx, as the function from the
detected emotion and the catalog outcome to the recommendation list shown:
`if (response.success && response.tracks) setRecommendations(response.tracks)
else setRecommendations(getDummyRecommendations(emotion))`, and the same
fallback in the `catch` branch.  Note the JavaScript truthiness of
`response.tracks`: a present-but-empty array is truthy, so it is displayed
as-is rather than triggering the fallback. -/
def fetchMusicRecommendations (emotion : String) : CatalogOutcome → List Track
  | .ok r =>
      match r.tracks with
      | some ts => if r.success then ts else getDummyRecommendations emotion
      | none => getDummyRecommendations emotion
  | .err => getDummyRecommendations emotion

/-- The outcomes on which the client code engages the dummy fallback:
the request threw, or the response is not marked successful, or it carries
no tracks field. -/
def fallbackEngaged : CatalogOutcome → Bool
  | .ok r => !r.success || r.tracks.isNone
  | .err => true

/-- The canonical emotion labels enumerated by the specification. -/
def canonicalEmotions : List String :=
  ["happy", "sad", "angry", "neutral", "surprised", "fearful", "disgusted"]

/-- The lowercased input determines the fallback output (helper shared by
the normalization and determinism theorems). -/
theorem getDummyRecommendations_toLower_congr (e₁ e₂ : String)
    (h : jsToLower e₁ = jsToLower e₂) :
    getDummyRecommendations e₁ = getDummyRecommendations e₂ := by
  unfold getDummyRecommendations
  rw [h]

/-- Every entry of every fallback table has a non-empty title and artist,
and every table has exactly `requestedLimit` (= 6) entries (helper). -/
theorem getDummyRecommendations_wellFormed (e : String) :
    (getDummyRecommendations e).length = requestedLimit ∧
      ∀ t ∈ getDummyRecommendations e, t.title ≠ "" ∧ t.artist ≠ "" := by
  unfold getDummyRecommendations
  split_ifs <;> exact ⟨by decide, by decide⟩

/-- C2 counterexample: a successful catalog response carrying a present but
empty `tracks` array slips past the truthiness check `response.success &&
response.tracks`, so the operation returns 0 tracks instead of the 6-track
fallback the claim demands for an empty result. -/
theorem fetch_empty_tracks_bypasses_fallback :
    fetchMusicRecommendations "happy" (.ok { success := true, tracks := some [] }) = [] ∧
      (getDummyRecommendations "happy").length = 6 := by
  constructor
  · rfl
  · decide

/-- C2 (amended): whenever the catalog request throws, or the response is
not marked successful, or it carries no tracks field, the client returns the
static per-emotion fallback table — which for every emotion has exactly the
6 tracks the client requests, each with non-empty title and artist. -/
theorem fetch_fallback_wellFormed (emotion : String) (o : CatalogOutcome)
    (h : fallbackEngaged o = true) :
    fetchMusicRecommendations emotion o = getDummyRecommendations emotion ∧
      (fetchMusicRecommendations emotion o).length = requestedLimit ∧
      ∀ t ∈ fetchMusicRecommendations emotion o, t.title ≠ "" ∧ t.artist ≠ "" := by
  have hfe : fetchMusicRecommendations emotion o = getDummyRecommendations emotion := by
    cases o with
    | err => rfl
    | ok r =>
        cases htr : r.tracks with
        | none => simp [fetchMusicRecommendations, htr]
        | some ts =>
            simp only [fallbackEngaged, htr, Option.isNone_some, Bool.or_false,
              Bool.not_eq_true'] at h
            simp [fetchMusicRecommendations, htr, h]
  refine ⟨hfe, ?_, ?_⟩
  · rw [hfe]; exact (getDummyRecommendations_wellFormed emotion).1
  · rw [hfe]; exact (getDummyRecommendations_wellFormed emotion).2

/-- C2 witness: with the catalog unreachable (request throws), the happy
fallback is engaged and returns exactly 6 well-formed tracks. -/
theorem fetch_fallback_wellFormed_witness :
    fallbackEngaged .err = true ∧
      fetchMusicRecommendations "happy" .err = getDummyRecommendations "happy" ∧
      (fetchMusicRecommendations "happy" .err).length = requestedLimit ∧
      ∀ t ∈ fetchMusicRecommendations "happy" .err, t.title ≠ "" ∧ t.artist ≠ "" :=
  ⟨rfl, fetch_fallback_wellFormed "happy" .err rfl⟩

/-- C3: the fallback lookup is determined by the lowercased emotion label;
the synonym pairs fear/fearful, disgust/disgusted and surprise/surprised
receive identical results; and any label whose lowercase form lies outside
the canonical enumerated set receives the neutral table. -/
theorem emotion_normalization :
    (∀ e₁ e₂ : String, jsToLower e₁ = jsToLower e₂ →
        getDummyRecommendations e₁ = getDummyRecommendations e₂) ∧
      getDummyRecommendations "fear" = getDummyRecommendations "fearful" ∧
      getDummyRecommendations "disgust" = getDummyRecommendations "disgusted" ∧
      getDummyRecommendations "surprise" = getDummyRecommendations "surprised" ∧
      ∀ e : String, jsToLower e ∉ canonicalEmotions →
        getDummyRecommendations e = dummyNeutral := by
  refine ⟨getDummyRecommendations_toLower_congr, by decide, by decide, by decide, ?_⟩
  intro e he
  have h₁ : jsToLower e ≠ "happy" := fun h => he (by rw [h]; decide)
  have h₂ : jsToLower e ≠ "sad" := fun h => he (by rw [h]; decide)
  have h₃ : jsToLower e ≠ "angry" := fun h => he (by rw [h]; decide)
  have h₄ : jsToLower e ≠ "neutral" := fun h => he (by rw [h]; decide)
  unfold getDummyRecommendations
  simp [h₁, h₂, h₃, h₄]

/-- C3 witness: case normalization at a concrete mixed-case input, and the
neutral fallback at a concrete label outside the canonical set. -/
theorem emotion_normalization_witness :
    getDummyRecommendations "HaPPy" = getDummyRecommendations "happy" ∧
      getDummyRecommendations "banana" = dummyNeutral :=
  ⟨emotion_normalization.1 "HaPPy" "happy" (by decide),
   emotion_normalization.2.2.2.2 "banana" (by decide)⟩

/-- C8: the fallback is deterministic and depends only on the emotion label
compared case-insensitively — two invocations whose labels agree after
lowercasing produce the identical ordered track list (the function takes no
other input and reads no state). -/
theorem fallback_deterministic (e₁ e₂ : String) (h : jsToLower e₁ = jsToLower e₂) :
    getDummyRecommendations e₁ = getDummyRecommendations e₂ :=
  getDummyRecommendations_toLower_congr e₁ e₂ h

/-- C8 witness: the two casings of "sad" yield the identical list. -/
theorem fallback_deterministic_witness :
    getDummyRecommendations "SAD" = getDummyRecommendations "sad" :=
  fallback_deterministic "SAD" "sad" (by decide)

/-! ## Persisted schema (backend/database/schema.sql) -/

/-- A row of the `users` table: `id` PK, `name`/`email`/`password_hash`
NOT NULL, `email` UNIQUE, defaults for `profile_picture` and timestamps;
`preferred_genres` is nullable. -/
structure UserRow where
  id : Nat
  name : String
  email : String
  password_hash : String
  profile_picture : String
  preferred_genres : Option String
  created_at : Nat
  updated_at : Nat
deriving DecidableEq, Repr

/-- A row of the `liked_songs` table: `id` PK, `user_id`/`song_title`/`artist`
NOT NULL, the remaining columns nullable, and a foreign key
`user_id → users(id)` with `ON DELETE CASCADE`.  The table declares no
UNIQUE constraint. -/
structure LikedSongRow where
  id : Nat
  user_id : Nat
  song_title : String
  artist : String
  album_art_url : Option String
  spotify_track_id : Option String
  spotify_preview_url : Option String
  genre : Option String
  emotion_detected : Option String
  liked_at : Nat
deriving DecidableEq, Repr

/-- A row of the `password_reset_codes` table: `id` PK, `user_id` and
`reset_code` and `expires_at` NOT NULL, `is_used` defaulting to 0, and a
cascading foreign key to `users`. -/
structure ResetCodeRow where
  id : Nat
  user_id : Nat
  reset_code : String
  created_at : Nat
  expires_at : Nat
  is_used : Bool
deriving DecidableEq, Repr

/-- A row of the `session_tokens` table: `id` PK, `token_jti` UNIQUE NOT
NULL, `is_revoked` defaulting to 0, and a cascading foreign key to `users`. -/
structure SessionTokenRow where
  id : Nat
  user_id : Nat
  token_jti : String
  created_at : Nat
  expires_at : Nat
  is_revoked : Bool
deriving DecidableEq, Repr

/-- The four persisted tables of schema.sql. -/
structure Database where
  users : List UserRow
  liked_songs : List LikedSongRow
  password_reset_codes : List ResetCodeRow
  session_tokens : List SessionTokenRow
deriving DecidableEq, Repr

/-- The constraints schema.sql declares on `users`: primary-key uniqueness
of `id` and the `UNIQUE` constraint on `email`. -/
def usersConstraints (db : Database) : Prop :=
  (db.users.map UserRow.id).Nodup ∧ (db.users.map UserRow.email).Nodup

/-- The constraints schema.sql declares on `liked_songs`: primary-key
uniqueness of `id` and the foreign key `user_id → users(id)`.  No UNIQUE
constraint on any other column or column combination is declared. -/
def likedSongsConstraints (db : Database) : Prop :=
  (db.liked_songs.map LikedSongRow.id).Nodup ∧
    ∀ s ∈ db.liked_songs, ∃ u ∈ db.users, u.id = s.user_id

/-- The constraints schema.sql declares on `password_reset_codes`:
primary-key uniqueness of `id` and the foreign key to `users`. -/
def resetCodesConstraints (db : Database) : Prop :=
  (db.password_reset_codes.map ResetCodeRow.id).Nodup ∧
    ∀ c ∈ db.password_reset_codes, ∃ u ∈ db.users, u.id = c.user_id

/-- The constraints schema.sql declares on `session_tokens`: primary-key
uniqueness of `id`, the `UNIQUE` constraint on `token_jti`, and the foreign
key to `users`. -/
def sessionTokensConstraints (db : Database) : Prop :=
  (db.session_tokens.map SessionTokenRow.id).Nodup ∧
    (db.session_tokens.map SessionTokenRow.token_jti).Nodup ∧
    ∀ t ∈ db.session_tokens, ∃ u ∈ db.users, u.id = t.user_id

/-- All store-level constraints of schema.sql. -/
def schemaConstraints (db : Database) : Prop :=
  usersConstraints db ∧ likedSongsConstraints db ∧
    resetCodesConstraints db ∧ sessionTokensConstraints db

instance (db : Database) : Decidable (usersConstraints db) := by
  unfold usersConstraints; infer_instance

instance (db : Database) : Decidable (likedSongsConstraints db) := by
  unfold likedSongsConstraints; infer_instance

instance (db : Database) : Decidable (resetCodesConstraints db) := by
  unfold resetCodesConstraints; infer_instance

instance (db : Database) : Decidable (sessionTokensConstraints db) := by
  unfold sessionTokensConstraints; infer_instance

instance (db : Database) : Decidable (schemaConstraints db) := by
  unfold schemaConstraints; infer_instance

/-- A plain SQL `INSERT` into `liked_songs` at the store level: the row is
appended and the statement succeeds iff every constraint the schema declares
still holds afterwards. -/
def insertLikedSong (r : LikedSongRow) (db : Database) : Option Database :=
  let db' : Database := { db with liked_songs := db.liked_songs ++ [r] }
  if schemaConstraints db' then some db' else none

/-- A concrete user for the liked-songs duplication scenario. -/
def aliceRow : UserRow :=
  { id := 1, name := "Alice", email := "a@x.com", password_hash := "h1",
    profile_picture := "default_avatar.png", preferred_genres := some "Pop",
    created_at := 0, updated_at := 0 }

/-- The liked-song row for one like of the same track, with primary key `i`:
identical `(user_id, spotify_track_id)` (and title/artist) across keys. -/
def likeRowPK (i : Nat) : LikedSongRow :=
  { id := i, user_id := 1, song_title := "Happy", artist := "Pharrell Williams",
    album_art_url := none, spotify_track_id := some "track1",
    spotify_preview_url := none, genre := some "G I R L",
    emotion_detected := some "happy", liked_at := 0 }

/-- The database holding Alice and no likes. -/
def dbAlice : Database :=
  { users := [aliceRow], liked_songs := [], password_reset_codes := [],
    session_tokens := [] }

/-- The database after two store-level inserts of the same like. -/
def dbAliceDup : Database :=
  { dbAlice with liked_songs := [likeRowPK 10, likeRowPK 11] }

/-- C1 counterexample: at the store level, performing the like insert twice
with identical `(user_id, spotify_track_id)` succeeds both times — the
schema declares no uniqueness constraint on `liked_songs` — and leaves two
rows with that natural key, not one. -/
theorem like_twice_leaves_two_rows :
    (insertLikedSong (likeRowPK 10) dbAlice).bind (insertLikedSong (likeRowPK 11))
        = some dbAliceDup ∧
      (dbAliceDup.liked_songs.filter
          (fun s => s.user_id == 1 && s.spotify_track_id == some "track1")).length = 2 := by
  constructor
  · decide
  · decide

/-- The natural-key uniqueness invariant the claim asserts the store
enforces on `liked_songs`, written from the spec for comparison with the
schema: at most one row per `(user_id, spotify_track_id)` when the track id
is present, else per `(user_id, song_title, artist)`. -/
def likedSongsNaturalKeyUnique (db : Database) : Prop :=
  ∀ s ∈ db.liked_songs, ∀ s' ∈ db.liked_songs,
    s.user_id = s'.user_id →
    ((s.spotify_track_id.isSome ∧ s.spotify_track_id = s'.spotify_track_id) ∨
      (s.spotify_track_id = none ∧ s'.spotify_track_id = none ∧
        s.song_title = s'.song_title ∧ s.artist = s'.artist)) →
    s = s'

/-- C1 (amended): schema.sql declares no uniqueness constraint on
`liked_songs` beyond the surrogate primary key, so a state with two rows of
identical `(user_id, spotify_track_id)` satisfies every declared constraint
while violating the natural-key invariant; the schema's natural-key
uniqueness constraints exist only on `users.email` and
`session_tokens.token_jti` (a duplicate email is rejected), so like-twice
deduplication is not enforced by the store. -/
theorem liked_songs_no_store_uniqueness :
    schemaConstraints dbAliceDup ∧
      ¬ likedSongsNaturalKeyUnique dbAliceDup ∧
      ¬ usersConstraints
          { dbAlice with users := [aliceRow, { aliceRow with id := 2 }] } := by
  refine ⟨by decide, ?_, by decide⟩
  intro h
  have h10 : likeRowPK 10 ∈ dbAliceDup.liked_songs := by decide
  have h11 : likeRowPK 11 ∈ dbAliceDup.liked_songs := by decide
  have := h (likeRowPK 10) h10 (likeRowPK 11) h11 rfl (Or.inl (by decide))
  exact absurd this (by decide)

/-- `DELETE FROM users WHERE id = uid` under the three `ON DELETE CASCADE`
foreign keys schema.sql declares: the user row is removed and so is every
row of `liked_songs`, `password_reset_codes` and `session_tokens` whose
`user_id` references it. -/
def deleteUser (uid : Nat) (db : Database) : Database :=
  { users := db.users.filter (fun u => u.id != uid),
    liked_songs := db.liked_songs.filter (fun s => s.user_id != uid),
    password_reset_codes := db.password_reset_codes.filter (fun c => c.user_id != uid),
    session_tokens := db.session_tokens.filter (fun t => t.user_id != uid) }

/-- No dependent row references a user id absent from `users`. -/
def noOrphans (db : Database) : Prop :=
  (∀ s ∈ db.liked_songs, ∃ u ∈ db.users, u.id = s.user_id) ∧
    (∀ c ∈ db.password_reset_codes, ∃ u ∈ db.users, u.id = c.user_id) ∧
    ∀ t ∈ db.session_tokens, ∃ u ∈ db.users, u.id = t.user_id

/-- C5: deleting a user cascades — afterwards no row of `liked_songs`,
`password_reset_codes` or `session_tokens` carries the deleted user's id,
and if the pre-state had no orphan rows then neither does the post-state:
every surviving dependent row still references an existing user. -/
theorem deleteUser_cascades (uid : Nat) (db : Database) (h : noOrphans db) :
    (∀ s ∈ (deleteUser uid db).liked_songs, s.user_id ≠ uid) ∧
      (∀ c ∈ (deleteUser uid db).password_reset_codes, c.user_id ≠ uid) ∧
      (∀ t ∈ (deleteUser uid db).session_tokens, t.user_id ≠ uid) ∧
      noOrphans (deleteUser uid db) := by
  obtain ⟨hls, hrc, hst⟩ := h
  have survive : ∀ v : Nat, v ≠ uid →
      (∃ u ∈ db.users, u.id = v) → ∃ u ∈ (deleteUser uid db).users, u.id = v := by
    intro v hv ⟨u, hu, huv⟩
    exact ⟨u, by simp [deleteUser, List.mem_filter, hu, huv, hv], huv⟩
  refine ⟨?_, ?_, ?_, ?_, ?_, ?_⟩
  · intro s hs
    simpa using (List.mem_filter.mp hs).2
  · intro c hc
    simpa using (List.mem_filter.mp hc).2
  · intro t ht
    simpa using (List.mem_filter.mp ht).2
  · intro s hs
    obtain ⟨hs', hne⟩ := List.mem_filter.mp hs
    exact survive _ (by simpa using hne) (hls s hs')
  · intro c hc
    obtain ⟨hc', hne⟩ := List.mem_filter.mp hc
    exact survive _ (by simpa using hne) (hrc c hc')
  · intro t ht
    obtain ⟨ht', hne⟩ := List.mem_filter.mp ht
    exact survive _ (by simpa using hne) (hst t ht')

/-- A two-user database exercising the cascade: Bob (id 2) and Carol (id 3)
each own dependent rows in all three tables. -/
def dbTwoUsers : Database :=
  { users :=
      [ { aliceRow with id := 2, name := "Bob", email := "b@x.com" },
        { aliceRow with id := 3, name := "Carol", email := "c@x.com" } ],
    liked_songs := [ { likeRowPK 20 with user_id := 2 }, { likeRowPK 21 with user_id := 3 } ],
    password_reset_codes :=
      [ { id := 1, user_id := 2, reset_code := "111111", created_at := 0,
          expires_at := 10, is_used := false },
        { id := 2, user_id := 3, reset_code := "222222", created_at := 0,
          expires_at := 10, is_used := false } ],
    session_tokens :=
      [ { id := 1, user_id := 2, token_jti := "jtiB", created_at := 0,
          expires_at := 10, is_revoked := false },
        { id := 2, user_id := 3, token_jti := "jtiC", created_at := 0,
          expires_at := 10, is_revoked := false } ] }

/-- C5 witness: deleting Bob from the concrete two-user database leaves no
dependent row with his id and no orphan rows. -/
theorem deleteUser_cascades_witness :
    (∀ s ∈ (deleteUser 2 dbTwoUsers).liked_songs, s.user_id ≠ 2) ∧
      (∀ c ∈ (deleteUser 2 dbTwoUsers).password_reset_codes, c.user_id ≠ 2) ∧
      (∀ t ∈ (deleteUser 2 dbTwoUsers).session_tokens, t.user_id ≠ 2) ∧
      noOrphans (deleteUser 2 dbTwoUsers) :=
  deleteUser_cascades 2 dbTwoUsers (by unfold noOrphans; refine ⟨?_, ?_, ?_⟩ <;> decide)

/-- `UPDATE users SET ... WHERE id = uid` followed by the
`update_user_timestamp` trigger of schema.sql: the update applies `f` to
every row matching the `WHERE` clause, and the `AFTER UPDATE FOR EACH ROW`
trigger then runs `UPDATE users SET updated_at = CURRENT_TIMESTAMP WHERE
id = OLD.id`, stamping `now` on the rows whose id is the updated row's
pre-update id. -/
def updateUsers (now uid : Nat) (f : UserRow → UserRow)
    (tbl : List UserRow) : List UserRow :=
  (tbl.map (fun r => if r.id = uid then f r else r)).map
    (fun r => if r.id = uid then { r with updated_at := now } else r)

/-- C7: for an update that does not rewrite the primary key, the post-state
is exactly the pre-state with `f` applied and `updated_at` refreshed to the
mutation time on every row the `WHERE` clause selected, and every other row
unchanged; consequently each post-state row with the updated id carries
`updated_at = now`. -/
theorem updateUsers_refreshes_timestamp (now uid : Nat) (f : UserRow → UserRow)
    (tbl : List UserRow) (hf : ∀ r, (f r).id = r.id) :
    updateUsers now uid f tbl
        = tbl.map (fun r => if r.id = uid then { f r with updated_at := now } else r) ∧
      ∀ r ∈ updateUsers now uid f tbl, r.id = uid → r.updated_at = now := by
  have hmap : updateUsers now uid f tbl
      = tbl.map (fun r => if r.id = uid then { f r with updated_at := now } else r) := by
    unfold updateUsers
    rw [List.map_map]
    refine List.map_congr_left ?_
    intro r _
    by_cases h : r.id = uid
    · simp [Function.comp, h, hf r]
    · simp [Function.comp, h]
  refine ⟨hmap, ?_⟩
  intro r hr hid
  rw [hmap] at hr
  obtain ⟨r₀, _, hr₀⟩ := List.mem_map.mp hr
  by_cases h : r₀.id = uid
  · rw [if_pos h] at hr₀
    rw [← hr₀]
  · rw [if_neg h] at hr₀
    exact absurd (hr₀ ▸ hid) h

/-- C7 witness: renaming Bob (id 2) in the two-user table refreshes his
`updated_at` to the mutation time 99 and leaves Carol's row unchanged. -/
theorem updateUsers_refreshes_timestamp_witness :
    updateUsers 99 2 (fun r => { r with name := "Robert" }) dbTwoUsers.users
        = dbTwoUsers.users.map
            (fun r => if r.id = 2 then { r with name := "Robert", updated_at := 99 } else r) ∧
      ∀ r ∈ updateUsers 99 2 (fun r => { r with name := "Robert" }) dbTwoUsers.users,
        r.id = 2 → r.updated_at = 99 :=
  updateUsers_refreshes_timestamp 99 2 (fun r => { r with name := "Robert" })
    dbTwoUsers.users (fun _ => rfl)

/-! ## Client session handling (frontend/src/services/api.js) -/

/-- The browser localStorage as the client session store: the two keys the
interceptor touches, plus the remaining key/value pairs, which it must not. -/
structure ClientStorage where
  access_token : Option String
  user : Option String
  other : List (String × String)
deriving DecidableEq, Repr

/-- An axios error as seen by the response interceptor:
`error.response?.status` — `none` when the request got no response. -/
structure ApiError where
  status : Option Nat
deriving DecidableEq, Repr

/-- The observable effect of the response error interceptor: the storage it
leaves behind, the navigation it performs, and whether it re-rejects the
error to the caller. -/
structure InterceptorEffect where
  storage : ClientStorage
  redirect : Option String
  propagated : Bool
deriving DecidableEq, Repr

/-- The response error interceptor of api.js: on status 401 it removes
`access_token` and `user` from localStorage and sets
`window.location.href = '/login'`; in every case it returns
`Promise.reject(error)`. -/
def responseErrorInterceptor (e : ApiError) (st : ClientStorage) : InterceptorEffect :=
  if e.status = some 401 then
    { storage := { st with access_token := none, user := none },
      redirect := some "/login", propagated := true }
  else
    { storage := st, redirect := none, propagated := true }

/-- C6: a 401 response tears the session down — both `access_token` and
`user` are removed (all other stored keys untouched), the client navigates
to the login route, and the error is still propagated; any other status
(including no response at all) leaves the storage untouched, performs no
redirect, and propagates the error. -/
theorem interceptor_teardown_on_401 (e : ApiError) (st : ClientStorage) :
    (e.status = some 401 →
        (responseErrorInterceptor e st).storage.access_token = none ∧
        (responseErrorInterceptor e st).storage.user = none ∧
        (responseErrorInterceptor e st).storage.other = st.other ∧
        (responseErrorInterceptor e st).redirect = some "/login" ∧
        (responseErrorInterceptor e st).propagated = true) ∧
      (e.status ≠ some 401 →
        (responseErrorInterceptor e st).storage = st ∧
        (responseErrorInterceptor e st).redirect = none ∧
        (responseErrorInterceptor e st).propagated = true) := by
  constructor
  · intro h
    simp [responseErrorInterceptor, h]
  · intro h
    simp [responseErrorInterceptor, h]

/-- C6 witness: a concrete 401 clears a populated session, and a concrete
500 leaves it untouched. -/
theorem interceptor_teardown_on_401_witness :
    ((responseErrorInterceptor ⟨some 401⟩
          ⟨some "tok", some "alice", [("theme", "dark")]⟩).storage.access_token = none ∧
        (responseErrorInterceptor ⟨some 401⟩
          ⟨some "tok", some "alice", [("theme", "dark")]⟩).storage.user = none ∧
        (responseErrorInterceptor ⟨some 401⟩
          ⟨some "tok", some "alice", [("theme", "dark")]⟩).storage.other = [("theme", "dark")] ∧
        (responseErrorInterceptor ⟨some 401⟩
          ⟨some "tok", some "alice", [("theme", "dark")]⟩).redirect = some "/login" ∧
        (responseErrorInterceptor ⟨some 401⟩
          ⟨some "tok", some "alice", [("theme", "dark")]⟩).propagated = true) ∧
      (responseErrorInterceptor ⟨some 500⟩
          ⟨some "tok", some "alice", []⟩).storage = ⟨some "tok", some "alice", []⟩ ∧
        (responseErrorInterceptor ⟨some 500⟩ ⟨some "tok", some "alice", []⟩).redirect = none ∧
        (responseErrorInterceptor ⟨some 500⟩ ⟨some "tok", some "alice", []⟩).propagated = true :=
  ⟨(interceptor_teardown_on_401 ⟨some 401⟩
      ⟨some "tok", some "alice", [("theme", "dark")]⟩).1 rfl,
   (interceptor_teardown_on_401 ⟨some 500⟩ ⟨some "tok", some "alice", []⟩).2 (by decide)⟩

/-! ## Password-reset verification (spec §4.2 and frontend/src/components/Auth/LoginPage.jsx) -/

/-- Whether an active (unused, unexpired) code matching `code` exists for
`uid` at time `now` (expiry compared lazily against the stored
`expires_at`). -/
def hasActiveCode (now uid : Nat) (code : String) (codes : List ResetCodeRow) : Bool :=
  codes.any fun r =>
    r.user_id == uid && r.reset_code == code && !r.is_used && now < r.expires_at

/-- Modelled from the spec: the backend `verifyCode(email, code)` handler is
not under `src/`; per §4.2 it succeeds iff an active (unused, unexpired)
code exists for the user and matches exactly, and it does not consume the
code — the store is returned unchanged. -/
def verifyCode (now uid : Nat) (code : String) (codes : List ResetCodeRow) :
    Bool × List ResetCodeRow :=
  (hasActiveCode now uid code codes, codes)

/-- Modelled from the spec: the backend `completeReset(email, code,
new_password)` handler is not under `src/`; per §4.2 it re-validates the
code exactly as `verifyCode` and, on success, marks it used (the password
update and token revocation are outside this store). -/
def completeReset (now uid : Nat) (code : String) (codes : List ResetCodeRow) :
    Option (List ResetCodeRow) :=
  if hasActiveCode now uid code codes then
    some (codes.map fun r =>
      if r.user_id == uid && r.reset_code == code then { r with is_used := true } else r)
  else none

/-- The component state of the multi-step reset flow in LoginPage.jsx. -/
structure ResetFlow where
  resetStep : Nat
  resetEmail : String
  resetCode : String
  newPassword : String
deriving DecidableEq, Repr

/-- The request `handleForgotPassword` submits, by step: step 1 sends
`forgotPassword(resetEmail)`, step 2 sends
`verifyResetCode(resetEmail, resetCode)`, step 3 sends
`resetPassword(resetEmail, resetCode, newPassword)`; other steps submit
nothing. -/
inductive ResetRequest where
  | forgot (email : String)
  | verify (email code : String)
  | reset (email code newPassword : String)
deriving DecidableEq, Repr

/-- The request `handleForgotPassword` sends for the current flow state. -/
def resetRequestOf (st : ResetFlow) : Option ResetRequest :=
  if st.resetStep = 1 then some (.forgot st.resetEmail)
  else if st.resetStep = 2 then some (.verify st.resetEmail st.resetCode)
  else if st.resetStep = 3 then some (.reset st.resetEmail st.resetCode st.newPassword)
  else none

/-- The state transition on a successful step-2 verification in
`handleForgotPassword`: only `resetStep` is advanced to 3; `resetEmail`,
`resetCode` and `newPassword` are left as they are. -/
def afterVerifySuccess (st : ResetFlow) : ResetFlow :=
  { st with resetStep := 3 }

/-- C4: verification is non-destructive — `verifyCode` returns the code
store unchanged, so a successful verification still validates when the same
code is subsequently passed to `completeReset` (which then succeeds); and in
the client flow, a step-2 state submits `(resetEmail, resetCode)` for
verification and, after the success transition, step 3 submits the
identical code string with the new password. -/
theorem verifyCode_nondestructive (now uid : Nat) (code : String)
    (codes : List ResetCodeRow) (st : ResetFlow)
    (hok : (verifyCode now uid code codes).1 = true) (hst : st.resetStep = 2) :
    (verifyCode now uid code codes).2 = codes ∧
      (completeReset now uid code ((verifyCode now uid code codes).2)).isSome ∧
      resetRequestOf st = some (.verify st.resetEmail st.resetCode) ∧
      resetRequestOf (afterVerifySuccess st)
        = some (.reset st.resetEmail st.resetCode st.newPassword) := by
  refine ⟨rfl, ?_, ?_, ?_⟩
  · simp only [verifyCode] at hok ⊢
    simp [completeReset, hok]
  · simp [resetRequestOf, hst]
  · simp [resetRequestOf, afterVerifySuccess]

/-- C4 witness: a concrete store holding one active code for user 2 at time
5, and a concrete step-2 flow state carrying that code. -/
theorem verifyCode_nondestructive_witness :
    (verifyCode 5 2 "111111" dbTwoUsers.password_reset_codes).1 = true ∧
      (verifyCode 5 2 "111111" dbTwoUsers.password_reset_codes).2
          = dbTwoUsers.password_reset_codes ∧
      (completeReset 5 2 "111111"
          ((verifyCode 5 2 "111111" dbTwoUsers.password_reset_codes).2)).isSome ∧
      resetRequestOf ⟨2, "b@x.com", "111111", "newpassword"⟩
          = some (.verify "b@x.com" "111111") ∧
      resetRequestOf (afterVerifySuccess ⟨2, "b@x.com", "111111", "newpassword"⟩)
          = some (.reset "b@x.com" "111111" "newpassword") :=
  ⟨by decide,
   verifyCode_nondestructive 5 2 "111111" dbTwoUsers.password_reset_codes
     ⟨2, "b@x.com", "111111", "newpassword"⟩ (by decide) rfl⟩

/-! ## Registration form (frontend/src/components/Auth/RegisterPage.jsx) -/

/-- `handleGenreToggle(genre)` of RegisterPage.jsx: `indexOf` finds the
first occurrence; if present (`index > -1`) it is removed with
`splice(index, 1)`, otherwise the genre is appended with `push`. -/
def handleGenreToggle (genre : String) (cur : List String) : List String :=
  if genre ∈ cur then cur.erase genre else cur ++ [genre]

/-- C9: on a duplicate-free genre list the toggle keeps the list
duplicate-free; toggling an absent genre appends it exactly once at the
end; toggling a present genre removes its single occurrence; and toggling
twice in succession restores the original membership. -/
theorem genre_toggle_involution (g : String) (l : List String) (hnd : l.Nodup) :
    (handleGenreToggle g l).Nodup ∧
      (g ∉ l → handleGenreToggle g l = l ++ [g]) ∧
      (g ∈ l → handleGenreToggle g l = l.erase g ∧ g ∉ handleGenreToggle g l) ∧
      ∀ x, x ∈ handleGenreToggle g (handleGenreToggle g l) ↔ x ∈ l := by
  refine ⟨?_, ?_, ?_, ?_⟩
  · unfold handleGenreToggle
    split_ifs with hg
    · exact hnd.erase g
    · refine List.nodup_append.mpr ⟨hnd, List.nodup_singleton g, ?_⟩
      intro a ha hag
      exact hg ((List.mem_singleton.mp hag) ▸ ha)
  · intro hg
    simp [handleGenreToggle, hg]
  · intro hg
    refine ⟨by simp [handleGenreToggle, hg], ?_⟩
    simp only [handleGenreToggle, if_pos hg]
    intro hmem
    exact ((hnd.mem_erase_iff).mp hmem).1 rfl
  · intro x
    by_cases hg : g ∈ l
    · have h₁ : handleGenreToggle g l = l.erase g := by simp [handleGenreToggle, hg]
      have hgo : g ∉ l.erase g := fun hmem => ((hnd.mem_erase_iff).mp hmem).1 rfl
      have h₂ : handleGenreToggle g (l.erase g) = l.erase g ++ [g] := by
        simp [handleGenreToggle, hgo]
      rw [h₁, h₂]
      simp only [List.mem_append, hnd.mem_erase_iff, List.mem_singleton]
      constructor
      · rintro (⟨-, hx⟩ | rfl)
        · exact hx
        · exact hg
      · intro hx
        by_cases hxg : x = g
        · exact Or.inr hxg
        · exact Or.inl ⟨hxg, hx⟩
    · have h₁ : handleGenreToggle g l = l ++ [g] := by simp [handleGenreToggle, hg]
      have hg' : g ∈ l ++ [g] := by simp
      have h₂ : handleGenreToggle g (l ++ [g]) = l := by
        simp only [handleGenreToggle, if_pos hg']
        rw [List.erase_append_right _ hg]
        simp
      rw [h₁, h₂]

/-- C9 witness: toggling a fresh genre on a concrete duplicate-free list
appends it, and toggling twice restores membership. -/
theorem genre_toggle_involution_witness :
    handleGenreToggle "Jazz" ["Pop", "Rock"] = ["Pop", "Rock", "Jazz"] ∧
      ∀ x, x ∈ handleGenreToggle "Jazz" (handleGenreToggle "Jazz" ["Pop", "Rock"]) ↔
        x ∈ ["Pop", "Rock"] :=
  ⟨(genre_toggle_involution "Jazz" ["Pop", "Rock"] (by decide)).2.1 (by decide),
   (genre_toggle_involution "Jazz" ["Pop", "Rock"] (by decide)).2.2.2⟩

/-- The registration form state of RegisterPage.jsx. -/
structure RegisterForm where
  name : String
  email : String
  password : String
  confirmPassword : String
  preferred_genres : List String
deriving DecidableEq, Repr

/-- The request body `handleSubmit` sends to `authAPI.register`:
`preferred_genres` is serialized by `join(', ')`. -/
structure RegisterPayload where
  name : String
  email : String
  password : String
  preferred_genres : String
deriving DecidableEq, Repr

/-- What a submit attempt does: either it stops at a failed client-side
check with the error message it sets, or it issues the register request. -/
inductive SubmitOutcome where
  | rejected (err : String)
  | sent (payload : RegisterPayload)
deriving DecidableEq, Repr

/-- `handleSubmit` of RegisterPage.jsx as its effect on the component:
the three validation checks run in order and each failure sets its message
and returns before any network call; on success the register request is
sent.  The handler never writes `formData`, so the form is returned
unchanged in every case. -/
def handleSubmit (f : RegisterForm) : SubmitOutcome × RegisterForm :=
  (if f.password ≠ f.confirmPassword then .rejected "Passwords do not match"
   else if f.password.length < 8 then
     .rejected "Password must be at least 8 characters long"
   else if f.preferred_genres.length = 0 then
     .rejected "Please select at least one music genre"
   else .sent { name := f.name, email := f.email, password := f.password,
                preferred_genres := String.intercalate ", " f.preferred_genres },
   f)

/-- Whether the submit attempt issued the network request. -/
def sendsRequest (o : SubmitOutcome) : Bool :=
  match o with
  | .sent _ => true
  | .rejected _ => false

/-- C10: the register request is sent exactly when the password matches its
confirmation, has length at least 8, and at least one genre is selected;
each failed precondition yields its specific error message (checked in the
handler's order) with no network call; and the form state is unchanged in
every case. -/
theorem register_submit_preconditions (f : RegisterForm) :
    (sendsRequest (handleSubmit f).1 = true ↔
        (f.password = f.confirmPassword ∧ 8 ≤ f.password.length ∧
          f.preferred_genres ≠ [])) ∧
      (f.password ≠ f.confirmPassword →
        (handleSubmit f).1 = .rejected "Passwords do not match") ∧
      (f.password = f.confirmPassword → f.password.length < 8 →
        (handleSubmit f).1 = .rejected "Password must be at least 8 characters long") ∧
      (f.password = f.confirmPassword → 8 ≤ f.password.length →
        f.preferred_genres = [] →
        (handleSubmit f).1 = .rejected "Please select at least one music genre") ∧
      (handleSubmit f).2 = f := by
  refine ⟨?_, ?_, ?_, ?_, rfl⟩
  · unfold handleSubmit sendsRequest
    split_ifs with h₁ h₂ h₃
    · simp only [Bool.false_eq_true, false_iff]
      intro ⟨hc, _, _⟩
      exact h₁ hc
    · simp only [Bool.false_eq_true, false_iff]
      intro ⟨_, hlen, _⟩
      omega
    · simp only [Bool.false_eq_true, false_iff]
      intro ⟨_, _, hg⟩
      exact hg (List.length_eq_zero.mp h₃)
    · simp only [true_iff]
      refine ⟨not_not.mp h₁, by omega, ?_⟩
      intro hg
      exact h₃ (by rw [hg]; rfl)
  · intro h
    simp [handleSubmit, h]
  · intro h₁ h₂
    have h₂' : f.confirmPassword.length < 8 := h₁ ▸ h₂
    simp [handleSubmit, h₁, h₂']
  · intro h₁ h₂ h₃
    have h₂' : ¬ f.confirmPassword.length < 8 := by rw [← h₁]; omega
    simp [handleSubmit, h₁, h₂', h₃]
/-- C10 witness: a mismatched confirmation is rejected with its message,
and a fully valid form sends the request. -/
theorem register_submit_preconditions_witness :
    (handleSubmit ⟨"Alice", "a@x.com", "password1", "password2", ["Pop"]⟩).1
        = .rejected "Passwords do not match" ∧
      sendsRequest
          (handleSubmit ⟨"Alice", "a@x.com", "password1", "password1", ["Pop"]⟩).1 = true :=
  ⟨(register_submit_preconditions ⟨"Alice", "a@x.com", "password1", "password2", ["Pop"]⟩).2.1
      (by decide),
   (register_submit_preconditions ⟨"Alice", "a@x.com", "password1", "password1", ["Pop"]⟩).1.mpr
      ⟨rfl, by decide, by decide⟩⟩
